import Mathlib

/-!
Shallow embedding of the local-database provisioning provider
(`controllers/cloud.redhat.com/providers/localdb.go`) of the clowder
repository, together with theorems checking the specification claims.

The file embeds the Go source faithfully:
  * `CreateDatabase`, `Configure`, `NewLocalDBProvider`, `makeLocalDB`,
    `makeLocalService`, `makeLocalPVC` are translated from the source.
  * Collaborators that are not part of the visible source
    (`utils.UpdateOrErr`, `utils.RandString`, the Kubernetes client
    `Get`/`Apply` round trips, `ClowdApp.SetObjectMeta`) are modelled
    from the specification and carry a doc comment saying so.
  * Go maps are modelled as association lists; mutation of a shared map
    through an aliased reference (the label map returned by `GetLabels`)
    is made explicit by returning the mutated owner descriptor from each
    builder.
-/

namespace Clowder

/-- Association-list insert with Go map assignment semantics:
`m[k] = v` replaces the binding of `k` when present, appends otherwise. -/
def mapInsert : List (String × String) → String → String → List (String × String)
  | [], k, v => [(k, v)]
  | (k0, v0) :: rest, k, v =>
    if k0 = k then (k, v) :: rest else (k0, v0) :: mapInsert rest k v

/-- `types.NamespacedName`: the (name, namespace) resource identity. -/
structure NamespacedName where
  Name : String
  Namespace : String
  deriving DecidableEq, Repr

/-- Kubernetes object metadata, restricted to the fields this fragment
touches: name, namespace and the label map. -/
structure ObjectMeta where
  Name : String
  Namespace : String
  Labels : List (String × String)
  deriving DecidableEq, Repr

/-- `config.DatabaseConfig`: the generated connection facts. -/
structure DatabaseConfig where
  Hostname : String
  Port : Nat
  Username : String
  Password : String
  PgPass : String
  Name : String
  deriving DecidableEq, Repr

/-- The `database` section of a ClowdApp spec: the declared logical
database name. -/
structure AppDatabaseSpec where
  Name : String
  deriving DecidableEq, Repr

/-- The part of `crd.ClowdAppSpec` this fragment reads. -/
structure ClowdAppSpec where
  Database : AppDatabaseSpec
  deriving DecidableEq, Repr

/-- `crd.ClowdApp`: the owning application descriptor (name, namespace,
label map, spec). -/
structure ClowdApp where
  Name : String
  Namespace : String
  Labels : List (String × String)
  Spec : ClowdAppSpec
  deriving DecidableEq, Repr

/-- The `database` section of the ClowdEnvironment spec: the image used
for the local database workload. -/
structure EnvDatabaseSpec where
  Image : String
  deriving DecidableEq, Repr

/-- The part of the ClowdEnvironment spec this fragment reads. -/
structure ClowdEnvSpec where
  Database : EnvDatabaseSpec
  deriving DecidableEq, Repr

/-- `crd.ClowdEnvironment`, restricted to the database image. -/
structure ClowdEnvironment where
  Spec : ClowdEnvSpec
  deriving DecidableEq, Repr

/-- `Provider`: the shared provider context. The client and context
handles are external collaborators; only the environment is data. -/
structure Provider where
  Env : ClowdEnvironment
  deriving DecidableEq, Repr

/-- `config.AppConfig`, restricted to the database section the
`Configure` method assigns. A Go nil pointer is `none`. -/
structure AppConfig where
  Database : Option DatabaseConfig
  deriving DecidableEq, Repr

/-- `localDbProvider`: embeds `Provider` and holds the (pointer to the)
database config, `none` for the Go nil zero value. -/
structure localDbProvider where
  Provider : Provider
  Config : Option DatabaseConfig
  deriving DecidableEq, Repr

/-- `NewLocalDBProvider`: builds the provider from the shared context;
the `Config` field is left at its zero value (nil). -/
def NewLocalDBProvider (p : Provider) : localDbProvider :=
  { Provider := p, Config := none }

/-- `Configure`: copies the provider Config pointer into the shared app
configuration. -/
def Configure (db : localDbProvider) (c : AppConfig) : AppConfig :=
  { c with Database := db.Config }

/-- `metav1.LabelSelector`, restricted to `MatchLabels`. -/
structure LabelSelector where
  MatchLabels : List (String × String)
  deriving DecidableEq, Repr

/-- `core.PersistentVolumeClaimVolumeSource`. -/
structure PersistentVolumeClaimVolumeSource where
  ClaimName : String
  deriving DecidableEq, Repr

/-- `core.VolumeSource`, restricted to the PVC source. -/
structure VolumeSource where
  PersistentVolumeClaim : Option PersistentVolumeClaimVolumeSource
  deriving DecidableEq, Repr

/-- `core.Volume`. -/
structure Volume where
  Name : String
  VolumeSource : VolumeSource
  deriving DecidableEq, Repr

/-- `core.LocalObjectReference`. -/
structure LocalObjectReference where
  Name : String
  deriving DecidableEq, Repr

/-- `core.EnvVar`. -/
structure EnvVar where
  Name : String
  Value : String
  deriving DecidableEq, Repr

/-- `core.ContainerPort`. -/
structure ContainerPort where
  Name : String
  ContainerPort : Nat
  deriving DecidableEq, Repr

/-- `core.ExecAction`. -/
structure ExecAction where
  Command : List String
  deriving DecidableEq, Repr

/-- `core.Handler`, restricted to the exec action. -/
structure Handler where
  Exec : Option ExecAction
  deriving DecidableEq, Repr

/-- `core.Probe`, restricted to the fields the source sets. -/
structure Probe where
  Handler : Handler
  InitialDelaySeconds : Nat
  TimeoutSeconds : Nat
  deriving DecidableEq, Repr

/-- `core.VolumeMount`. -/
structure VolumeMount where
  Name : String
  MountPath : String
  deriving DecidableEq, Repr

/-- `core.Container`, restricted to the fields the source sets. -/
structure Container where
  Name : String
  Image : String
  Env : List EnvVar
  LivenessProbe : Option Probe
  ReadinessProbe : Option Probe
  Ports : List ContainerPort
  VolumeMounts : List VolumeMount
  deriving DecidableEq, Repr

/-- `core.PodSpec`, restricted to the fields the source sets. -/
structure PodSpec where
  Volumes : List Volume
  ImagePullSecrets : List LocalObjectReference
  Containers : List Container
  deriving DecidableEq, Repr

/-- `core.PodTemplateSpec`. -/
structure PodTemplateSpec where
  ObjectMeta : ObjectMeta
  Spec : PodSpec
  deriving DecidableEq, Repr

/-- `apps.DeploymentSpec`, restricted to the fields the source sets.
`Replicas` is a `*int32`: `none` for nil. -/
structure DeploymentSpec where
  Replicas : Option Int
  Selector : Option LabelSelector
  Template : PodTemplateSpec
  deriving DecidableEq, Repr

/-- `apps.Deployment` (the workload resource). -/
structure Deployment where
  ObjectMeta : ObjectMeta
  Spec : DeploymentSpec
  deriving DecidableEq, Repr

/-- `core.ServicePort`. -/
structure ServicePort where
  Name : String
  Port : Nat
  Protocol : String
  deriving DecidableEq, Repr

/-- `core.ServiceSpec`, restricted to the fields the source sets. -/
structure ServiceSpec where
  Selector : List (String × String)
  Ports : List ServicePort
  deriving DecidableEq, Repr

/-- `core.Service` (the endpoint resource). -/
structure Service where
  ObjectMeta : ObjectMeta
  Spec : ServiceSpec
  deriving DecidableEq, Repr

/-- `resource.Quantity`, kept as its canonical textual form: the source
only ever constructs the constant `1Gi` via `resource.MustParse`. -/
structure Quantity where
  Text : String
  deriving DecidableEq, Repr

/-- `resource.MustParse`, restricted to carrying the literal through. -/
def MustParse (s : String) : Quantity := ⟨s⟩

/-- `core.ReadWriteOnce` access mode constant. -/
def ReadWriteOnce : String := "ReadWriteOnce"

/-- `core.ResourceStorage` resource-name constant. -/
def ResourceStorage : String := "storage"

/-- `core.ResourceRequirements`, restricted to requests; the resource
list is an association list from resource name to quantity. -/
structure ResourceRequirements where
  Requests : List (String × Quantity)
  deriving DecidableEq, Repr

/-- `core.PersistentVolumeClaimSpec`, restricted to the fields the
source sets. -/
structure PersistentVolumeClaimSpec where
  AccessModes : List String
  Resources : ResourceRequirements
  deriving DecidableEq, Repr

/-- `core.PersistentVolumeClaim` (the storage resource). -/
structure PersistentVolumeClaim where
  ObjectMeta : ObjectMeta
  Spec : PersistentVolumeClaimSpec
  deriving DecidableEq, Repr

/-- Go zero value of `apps.Deployment{}`. -/
def emptyDeployment : Deployment :=
  { ObjectMeta := ⟨"", "", []⟩
    Spec :=
      { Replicas := none
        Selector := none
        Template :=
          { ObjectMeta := ⟨"", "", []⟩
            Spec := { Volumes := [], ImagePullSecrets := [], Containers := [] } } } }

/-- Go zero value of `core.Service{}`. -/
def emptyService : Service :=
  { ObjectMeta := ⟨"", "", []⟩, Spec := { Selector := [], Ports := [] } }

/-- Go zero value of `core.PersistentVolumeClaim{}`. -/
def emptyPVC : PersistentVolumeClaim :=
  { ObjectMeta := ⟨"", "", []⟩
    Spec := { AccessModes := [], Resources := { Requests := [] } } }

/-- Modelled from the spec: `utils.Int32` (outside src/) boxes an int32
into a pointer; the int32 value is normalised mod 2^32 into the signed
range. -/
def Int32 (n : Int) : Option Int :=
  some ((n + 2 ^ 31) % 2 ^ 32 - 2 ^ 31)

/-- Modelled from the spec: `ClowdApp.SetObjectMeta` (outside src/) is
the MetadataStamper collaborator, `stamp(target, name, namespace?,
labels)`: it sets the identifying metadata passed as options (name,
labels, and namespace when given; the owner namespace otherwise). -/
def SetObjectMeta (pp : ClowdApp) (o : ObjectMeta) (name : String)
    (ns : Option String) (labels : List (String × String)) : ObjectMeta :=
  { o with Name := name, Namespace := ns.getD pp.Namespace, Labels := labels }

/-- `makeLocalDB`: the Workload Builder. `labels := pp.GetLabels()`
aliases the descriptor label map, so the `labels["service"] = "db"`
assignment mutates the descriptor in place; the embedding returns the
mutated descriptor alongside the populated deployment. -/
def makeLocalDB (dd : Deployment) (nn : NamespacedName) (pp : ClowdApp)
    (cfg : DatabaseConfig) (image : String) : Deployment × ClowdApp :=
  let labels := mapInsert pp.Labels "service" "db"
  let pp := { pp with Labels := labels }
  let meta := SetObjectMeta pp dd.ObjectMeta nn.Name none labels
  let envVars : List EnvVar :=
    [⟨"POSTGRESQL_USER", cfg.Username⟩,
     ⟨"POSTGRESQL_PASSWORD", cfg.Password⟩,
     ⟨"PGPASSWORD", cfg.PgPass⟩,
     ⟨"POSTGRESQL_DATABASE", pp.Spec.Database.Name⟩]
  let ports : List ContainerPort := [⟨"database", 5432⟩]
  let probeHandler : Handler :=
    ⟨some ⟨["psql", "-U", "$(POSTGRESQL_USER)", "-d", "$(POSTGRESQL_DATABASE)",
            "-c", "SELECT 1"]⟩⟩
  let livenessProbe : Probe := ⟨probeHandler, 15, 2⟩
  let readinessProbe : Probe := ⟨probeHandler, 45, 2⟩
  let c : Container :=
    { Name := nn.Name
      Image := image
      Env := envVars
      LivenessProbe := some livenessProbe
      ReadinessProbe := some readinessProbe
      Ports := ports
      VolumeMounts := [⟨nn.Name, "/var/lib/pgsql/data"⟩] }
  let dd :=
    { dd with
      ObjectMeta := meta
      Spec :=
        { dd.Spec with
          Replicas := Int32 1
          Selector := some ⟨labels⟩
          Template :=
            { dd.Spec.Template with
              ObjectMeta := { dd.Spec.Template.ObjectMeta with Labels := labels }
              Spec :=
                { dd.Spec.Template.Spec with
                  Volumes := [⟨nn.Name, ⟨some ⟨nn.Name⟩⟩⟩]
                  ImagePullSecrets := [⟨"quay-cloudservices-pull"⟩]
                  Containers := [c] } } } }
  (dd, pp)

/-- `makeLocalService`: the Endpoint Builder, returning the populated
service and the descriptor with its label map mutated in place. -/
def makeLocalService (s : Service) (nn : NamespacedName) (pp : ClowdApp) :
    Service × ClowdApp :=
  let servicePorts : List ServicePort := [⟨"database", 5432, "TCP"⟩]
  let labels := mapInsert pp.Labels "service" "db"
  let pp := { pp with Labels := labels }
  let meta := SetObjectMeta pp s.ObjectMeta nn.Name (some nn.Namespace) labels
  let s :=
    { s with
      ObjectMeta := meta
      Spec := { s.Spec with Selector := labels, Ports := servicePorts } }
  (s, pp)

/-- `makeLocalPVC`: the Storage Builder, returning the populated claim
and the descriptor with its label map mutated in place. -/
def makeLocalPVC (pvc : PersistentVolumeClaim) (nn : NamespacedName)
    (pp : ClowdApp) : PersistentVolumeClaim × ClowdApp :=
  let labels := mapInsert pp.Labels "service" "db"
  let pp := { pp with Labels := labels }
  let meta := SetObjectMeta pp pvc.ObjectMeta nn.Name none labels
  let pvc :=
    { pvc with
      ObjectMeta := meta
      Spec :=
        { pvc.Spec with
          AccessModes := [ReadWriteOnce]
          Resources := { Requests := [(ResourceStorage, MustParse "1Gi")] } } }
  (pvc, pp)

/-! ## The store model and the provisioning orchestrator -/

/-- The three resource kinds the orchestrator provisions, in order. -/
inductive Kind where
  | workload
  | endpoint
  | storage
  deriving DecidableEq, Repr

/-- Observable effects of one provisioning run, in execution order: store
fetches, credential-generator calls (with requested length), and store
applies (attempted, whether or not they succeed). -/
inductive Event where
  | get (k : Kind)
  | rand (len : Nat)
  | apply (k : Kind)
  deriving DecidableEq, Repr

/-- Outcome of one scheduled store round trip: succeed, or fail with an
error message (for a fetch, an error other than not-found). -/
inductive Fault where
  | ok
  | fail (msg : String)
  deriving DecidableEq, Repr

/-- Fault schedule for the six store round trips of one run, in the
order the source performs them. -/
structure Schedule where
  getDep : Fault
  applyDep : Fault
  getSvc : Fault
  applySvc : Fault
  getPvc : Fault
  applyPvc : Fault
  deriving DecidableEq, Repr

/-- A schedule where every store round trip succeeds. -/
def Schedule.allOk : Schedule := ⟨.ok, .ok, .ok, .ok, .ok, .ok⟩

/-- The external resource store: one keyed collection per resource kind,
all keyed by `NamespacedName`. -/
structure Store where
  deployments : List (NamespacedName × Deployment)
  services : List (NamespacedName × Service)
  pvcs : List (NamespacedName × PersistentVolumeClaim)
  deriving DecidableEq, Repr

/-- The empty store. -/
def Store.empty : Store := ⟨[], [], []⟩

/-- Lookup in a keyed collection. -/
def lookupRes {α : Type} (l : List (NamespacedName × α)) (nn : NamespacedName) :
    Option α :=
  match l with
  | [] => none
  | (k, a) :: rest => if k = nn then some a else lookupRes rest nn

/-- Insert-or-replace in a keyed collection. -/
def insertRes {α : Type} (l : List (NamespacedName × α)) (nn : NamespacedName)
    (a : α) : List (NamespacedName × α) :=
  match l with
  | [] => [(nn, a)]
  | (k, b) :: rest =>
    if k = nn then (nn, a) :: rest else (k, b) :: insertRes rest nn a

/-- Outcome of a `client.Get` round trip: the resource when found, a
not-found report, or another store error. -/
inductive GetResult (α : Type) where
  | found (a : α)
  | notFound
  | err (msg : String)
  deriving DecidableEq, Repr

/-- Modelled from the spec: `Store.fetch(identity, kind)` (the client
`Get` is outside src/). Under a failing fault it reports a store error;
otherwise it reports the stored resource or not-found. -/
def storeGet {α : Type} (f : Fault) (l : List (NamespacedName × α))
    (nn : NamespacedName) : GetResult α :=
  match f with
  | .fail msg => .err msg
  | .ok =>
    match lookupRes l nn with
    | some a => .found a
    | none => .notFound

/-- Modelled from the spec: `utils.UpdateOrErr` (outside src/), the
Existence Resolver. A found resource yields the flag `true` and the
fetched object; not-found yields `false` and the zero-valued object the
caller passed in; any other fetch error is propagated and no handle is
produced. -/
def UpdateOrErr {α : Type} (g : GetResult α) (zero : α) :
    Except String (Bool × α) :=
  match g with
  | .found a => .ok (true, a)
  | .notFound => .ok (false, zero)
  | .err msg => .error msg

/-- Modelled from the spec: `Updater.Apply` (outside src/). Create when
the resource was absent, update-in-place when present; both leave the
applied resource in the store on success, and a scheduled fault surfaces
as the apply error. -/
def applyRes {α : Type} (f : Fault) (l : List (NamespacedName × α))
    (nn : NamespacedName) (a : α) :
    Except String (List (NamespacedName × α)) :=
  match f with
  | .fail msg => .error msg
  | .ok => .ok (insertRes l nn a)

/-- The derived resource identity of lines 33 to 36 of the source:
`fmt.Sprintf("%v-db", app.Name)` in the app namespace. -/
def deriveNN (app : ClowdApp) : NamespacedName :=
  { Name := app.Name ++ "-db", Namespace := app.Namespace }

/-- The generated connection config of lines 50 to 57 of the source.
`utils.RandString` (outside src/) is modelled from the spec as an
abstract generator `rand`, indexed by the call number within the run and
the requested length. -/
def genConfig (rand : Nat → Nat → String) (nn : NamespacedName)
    (app : ClowdApp) : DatabaseConfig :=
  { Hostname := nn.Name ++ "." ++ nn.Namespace ++ ".svc"
    Port := 5432
    Username := rand 0 16
    Password := rand 1 16
    PgPass := rand 2 16
    Name := app.Spec.Database.Name }

/-- Result of one `CreateDatabase` run: the provider after the call, the
store after the call, the returned error (`none` on success) and the
trace of observable effects. -/
structure RunResult where
  db : localDbProvider
  store : Store
  err : Option String
  trace : List Event
  deriving DecidableEq, Repr

/-- `CreateDatabase`: the provisioning orchestrator, sequencing the
existence check, credential generation, the three builders and the three
applies exactly as the source does; store round trips are resolved
against the fault schedule and the store state, and every effect is
recorded in the trace. -/
def CreateDatabase (db : localDbProvider) (sched : Schedule)
    (rand : Nat → Nat → String) (store : Store) (app : ClowdApp) : RunResult :=
  let nn := deriveNN app
  let t0 : List Event := [.get .workload]
  match UpdateOrErr (storeGet sched.getDep store.deployments nn) emptyDeployment with
  | .error e => ⟨db, store, some e, t0⟩
  | .ok (existsFlag, dd) =>
    if existsFlag then
      ⟨db, store, some "DB has already been created", t0⟩
    else
      let cfg := genConfig rand nn app
      let t1 := t0 ++ [.rand 16, .rand 16, .rand 16]
      let (dd, app) := makeLocalDB dd nn app cfg db.Provider.Env.Spec.Database.Image
      match applyRes sched.applyDep store.deployments nn dd with
      | .error e => ⟨db, store, some e, t1 ++ [.apply .workload]⟩
      | .ok deps =>
        let store := { store with deployments := deps }
        let t2 := t1 ++ [.apply .workload, .get .endpoint]
        match UpdateOrErr (storeGet sched.getSvc store.services nn) emptyService with
        | .error e => ⟨db, store, some e, t2⟩
        | .ok (_update, s) =>
          let (s, app) := makeLocalService s nn app
          match applyRes sched.applySvc store.services nn s with
          | .error e => ⟨db, store, some e, t2 ++ [.apply .endpoint]⟩
          | .ok svcs =>
            let store := { store with services := svcs }
            let t3 := t2 ++ [.apply .endpoint, .get .storage]
            match UpdateOrErr (storeGet sched.getPvc store.pvcs nn) emptyPVC with
            | .error e => ⟨db, store, some e, t3⟩
            | .ok (_update2, pvc) =>
              let (pvc, _app) := makeLocalPVC pvc nn app
              match applyRes sched.applyPvc store.pvcs nn pvc with
              | .error e => ⟨db, store, some e, t3 ++ [.apply .storage]⟩
              | .ok pvcs2 =>
                ⟨db, { store with pvcs := pvcs2 }, none, t3 ++ [.apply .storage]⟩

/-- Number of credential-generator invocations recorded in a trace. -/
def randCount (t : List Event) : Nat :=
  (t.filter fun e => match e with | .rand _ => true | _ => false).length

/-! ## Concrete inputs used by witnesses and counterexamples -/

/-- The scenario descriptor of the spec: name `orders`, namespace
`prod`, declared database name `orders_db`, one label. -/
def appOrders : ClowdApp :=
  ⟨"orders", "prod", [("app", "orders")], ⟨⟨"orders_db"⟩⟩⟩

/-- A fresh provider whose environment uses the image `postgres:13`. -/
def provOrders : localDbProvider := NewLocalDBProvider ⟨⟨⟨⟨"postgres:13"⟩⟩⟩⟩

/-- A concrete credential generator satisfying the spec contract of
`RandString`: it returns a string of the requested length. -/
def constRand : Nat → Nat → String :=
  fun _ n => String.mk (List.replicate n 'a')

/-- The config `CreateDatabase` generates for `appOrders` under
`constRand`. -/
def cfgOrders : DatabaseConfig := genConfig constRand (deriveNN appOrders) appOrders

/-- Auxiliary lemma: looking up the key just inserted returns the
inserted resource. -/
theorem lookupRes_insertRes {α : Type} (l : List (NamespacedName × α))
    (nn : NamespacedName) (a : α) : lookupRes (insertRes l nn a) nn = some a := by
  induction l with
  | nil => simp [insertRes, lookupRes]
  | cons p rest ih =>
    rcases p with ⟨k, b⟩
    by_cases h : k = nn <;> simp [insertRes, lookupRes, h, ih]

/-- The effect sequence of a fully successful provisioning run, in the
fixed order of the source: workload fetch, three credential generations,
workload apply, endpoint fetch, endpoint apply, storage fetch, storage
apply. -/
def provisionTrace : List Event :=
  [.get .workload, .rand 16, .rand 16, .rand 16, .apply .workload,
   .get .endpoint, .apply .endpoint, .get .storage, .apply .storage]

/-- Helper: a first fetch failing other than not-found aborts the run at
once with that error. -/
theorem createDatabase_getDep_fail (db : localDbProvider) (sched : Schedule)
    (rand : Nat → Nat → String) (store : Store) (app : ClowdApp) (msg : String)
    (h : sched.getDep = .fail msg) :
    CreateDatabase db sched rand store app =
      ⟨db, store, some msg, [.get .workload]⟩ := by
  simp only [CreateDatabase, storeGet, UpdateOrErr, h]

/-- Helper: an existing workload aborts the run with the conflict
error, leaving provider and store untouched. -/
theorem createDatabase_found (db : localDbProvider) (sched : Schedule)
    (rand : Nat → Nat → String) (store : Store) (app : ClowdApp) (dd : Deployment)
    (hget : sched.getDep = .ok)
    (hfound : lookupRes store.deployments (deriveNN app) = some dd) :
    CreateDatabase db sched rand store app =
      ⟨db, store, some "DB has already been created", [.get .workload]⟩ := by
  simp only [CreateDatabase, storeGet, UpdateOrErr, hget, hfound, if_true]

/-- Helper: an absent workload makes the run generate exactly three
credentials, whatever happens afterwards. -/
theorem createDatabase_absent_randCount (db : localDbProvider) (sched : Schedule)
    (rand : Nat → Nat → String) (store : Store) (app : ClowdApp)
    (h1 : sched.getDep = .ok)
    (h2 : lookupRes store.deployments (deriveNN app) = none) :
    randCount (CreateDatabase db sched rand store app).trace = 3 := by
  rcases sched with ⟨gd, ad, gs, asv, gp, ap⟩
  cases h1
  cases ad <;> cases gs <;> cases asv <;> cases gp <;> cases ap <;>
    cases hs : lookupRes store.services (deriveNN app) <;>
    cases hp : lookupRes store.pvcs (deriveNN app) <;>
    simp only [CreateDatabase, storeGet, UpdateOrErr, applyRes, h2, hs, hp,
      randCount, Bool.false_eq_true, if_false] <;>
    decide

/-- Helper: when the workload apply succeeds and the endpoint apply
fails, the run stops with that error; the store holds the applied
workload and was never touched for storage. -/
theorem createDatabase_svcApply_fail (db : localDbProvider) (sched : Schedule)
    (rand : Nat → Nat → String) (store : Store) (app : ClowdApp) (msg : String)
    (h1 : sched.getDep = .ok)
    (h2 : lookupRes store.deployments (deriveNN app) = none)
    (h3 : sched.applyDep = .ok)
    (h4 : sched.getSvc = .ok)
    (h5 : sched.applySvc = .fail msg) :
    CreateDatabase db sched rand store app =
      ⟨db,
       { store with
          deployments := insertRes store.deployments (deriveNN app)
            (makeLocalDB emptyDeployment (deriveNN app) app
              (genConfig rand (deriveNN app) app)
              db.Provider.Env.Spec.Database.Image).1 },
       some msg,
       [.get .workload, .rand 16, .rand 16, .rand 16, .apply .workload,
        .get .endpoint, .apply .endpoint]⟩ := by
  cases hs : lookupRes store.services (deriveNN app) <;>
    simp only [CreateDatabase, storeGet, UpdateOrErr, applyRes, h1, h2, h3, h4,
      h5, hs, Bool.false_eq_true, if_false, List.cons_append, List.nil_append]

/-- Helper: with every round trip succeeding and the workload absent,
the run succeeds and its effect sequence is exactly `provisionTrace`. -/
theorem createDatabase_allOk (db : localDbProvider) (sched : Schedule)
    (rand : Nat → Nat → String) (store : Store) (app : ClowdApp)
    (h1 : sched.getDep = .ok) (h3 : sched.applyDep = .ok)
    (h4 : sched.getSvc = .ok) (h5 : sched.applySvc = .ok)
    (h6 : sched.getPvc = .ok) (h7 : sched.applyPvc = .ok)
    (h2 : lookupRes store.deployments (deriveNN app) = none) :
    (CreateDatabase db sched rand store app).err = none ∧
    (CreateDatabase db sched rand store app).trace = provisionTrace := by
  cases hs : lookupRes store.services (deriveNN app) <;>
    cases hp : lookupRes store.pvcs (deriveNN app) <;>
    simp only [CreateDatabase, storeGet, UpdateOrErr, applyRes, h1, h2, h3, h4,
      h5, h6, h7, hs, hp, Bool.false_eq_true, if_false, List.cons_append,
      List.nil_append, provisionTrace] <;>
    exact ⟨by simp, by simp⟩

/-- Helper: every run, whatever the schedule and store, produces an
effect sequence that is an initial segment of `provisionTrace`: steps
happen in the fixed order and an abort only ever drops a suffix. -/
theorem createDatabase_trace_sequential (db : localDbProvider) (sched : Schedule)
    (rand : Nat → Nat → String) (store : Store) (app : ClowdApp) :
    ∃ rest, (CreateDatabase db sched rand store app).trace ++ rest =
      provisionTrace := by
  rcases sched with ⟨gd, ad, gs, asv, gp, ap⟩
  cases gd <;> cases ad <;> cases gs <;> cases asv <;> cases gp <;> cases ap <;>
    cases hdep : lookupRes store.deployments (deriveNN app) <;>
    cases hs : lookupRes store.services (deriveNN app) <;>
    cases hp : lookupRes store.pvcs (deriveNN app) <;>
    simp only [CreateDatabase, storeGet, UpdateOrErr, applyRes, hdep, hs, hp,
      Bool.false_eq_true, if_false, if_true, eq_self_iff_true, List.cons_append,
      List.nil_append, provisionTrace] <;>
    first
      | exact ⟨[], rfl⟩
      | exact ⟨[.apply .storage], rfl⟩
      | exact ⟨[.get .storage, .apply .storage], rfl⟩
      | exact ⟨[.apply .endpoint, .get .storage, .apply .storage], rfl⟩
      | exact ⟨[.get .endpoint, .apply .endpoint, .get .storage,
                .apply .storage], rfl⟩
      | exact ⟨[.apply .workload, .get .endpoint, .apply .endpoint,
                .get .storage, .apply .storage], rfl⟩
      | exact ⟨[.rand 16, .rand 16, .rand 16, .apply .workload, .get .endpoint,
                .apply .endpoint, .get .storage, .apply .storage], rfl⟩

/-! ## Claim theorems -/

/-- A store already holding a workload at the identity derived for
`appOrders`. -/
def storeWithDep : Store := ⟨[(deriveNN appOrders, emptyDeployment)], [], []⟩

/-- A schedule whose first fetch fails with a non-not-found store
error. -/
def schedGetFail : Schedule := ⟨.fail "store down", .ok, .ok, .ok, .ok, .ok⟩

/-- A schedule whose endpoint apply fails. -/
def schedSvcFail : Schedule := ⟨.ok, .ok, .ok, .fail "boom", .ok, .ok⟩

/-- Claim C1: evaluation of the code at the failing input. For the spec
scenario descriptor, an empty store and an all-succeeding schedule, the
run succeeds and the generated config has the claimed shape (hostname
`orders-db.prod.svc`, port 5432, non-empty 16-character credentials,
logical name `orders_db`) — but `CreateDatabase` never stores the
generated config in the provider, so `Configure` after the successful
run assigns `none` (the untouched zero value) to the shared app
configuration instead of the generated config the claim requires. -/
theorem C1_config_not_propagated :
    (CreateDatabase provOrders Schedule.allOk constRand Store.empty appOrders).err
      = none ∧
    (genConfig constRand (deriveNN appOrders) appOrders).Hostname =
      "orders-db.prod.svc" ∧
    (genConfig constRand (deriveNN appOrders) appOrders).Port = 5432 ∧
    (genConfig constRand (deriveNN appOrders) appOrders).Username.length = 16 ∧
    (genConfig constRand (deriveNN appOrders) appOrders).Username ≠ "" ∧
    (genConfig constRand (deriveNN appOrders) appOrders).Password.length = 16 ∧
    (genConfig constRand (deriveNN appOrders) appOrders).PgPass.length = 16 ∧
    (genConfig constRand (deriveNN appOrders) appOrders).Name = "orders_db" ∧
    (CreateDatabase provOrders Schedule.allOk constRand Store.empty
        appOrders).db.Config = none ∧
    Configure
      (CreateDatabase provOrders Schedule.allOk constRand Store.empty
        appOrders).db ⟨none⟩ = ⟨none⟩ ∧
    (⟨none⟩ : AppConfig) ≠
      ⟨some (genConfig constRand (deriveNN appOrders) appOrders)⟩ := by
  decide

/-- Claim C2: when the first fetch succeeds and reports an existing
workload, the run returns the conflict error, leaves the store
untouched, generates no credentials, and attempts no apply. -/
theorem C2_already_provisioned (db : localDbProvider) (sched : Schedule)
    (rand : Nat → Nat → String) (store : Store) (app : ClowdApp)
    (dd : Deployment) (hget : sched.getDep = .ok)
    (hfound : lookupRes store.deployments (deriveNN app) = some dd) :
    (CreateDatabase db sched rand store app).err =
      some "DB has already been created" ∧
    (CreateDatabase db sched rand store app).store = store ∧
    randCount (CreateDatabase db sched rand store app).trace = 0 ∧
    ∀ k, Event.apply k ∉ (CreateDatabase db sched rand store app).trace := by
  rw [createDatabase_found db sched rand store app dd hget hfound]
  refine ⟨rfl, rfl, rfl, ?_⟩
  intro k
  simp

/-- Witness for C2: the conflict reported on a store already holding
the derived workload. -/
theorem C2_witness :
    (CreateDatabase provOrders Schedule.allOk constRand storeWithDep
        appOrders).err = some "DB has already been created" ∧
    (CreateDatabase provOrders Schedule.allOk constRand storeWithDep
        appOrders).store = storeWithDep ∧
    randCount (CreateDatabase provOrders Schedule.allOk constRand storeWithDep
        appOrders).trace = 0 :=
  ⟨(C2_already_provisioned provOrders Schedule.allOk constRand storeWithDep
      appOrders emptyDeployment rfl (by decide)).1,
   (C2_already_provisioned provOrders Schedule.allOk constRand storeWithDep
      appOrders emptyDeployment rfl (by decide)).2.1,
   (C2_already_provisioned provOrders Schedule.allOk constRand storeWithDep
      appOrders emptyDeployment rfl (by decide)).2.2.1⟩

/-- Claim C3: the credential generator runs exactly three times if and
only if the initial workload fetch succeeds and reports the resource
absent; and when that first fetch fails with an error other than
not-found, the run returns exactly that error with no credential
generated and no resource applied (provider and store unchanged, the
trace holds the single fetch). -/
theorem C3_creds_iff_absent (db : localDbProvider) (sched : Schedule)
    (rand : Nat → Nat → String) (store : Store) (app : ClowdApp) :
    (randCount (CreateDatabase db sched rand store app).trace = 3 ↔
      (sched.getDep = .ok ∧
        lookupRes store.deployments (deriveNN app) = none)) ∧
    (∀ msg, sched.getDep = .fail msg →
      CreateDatabase db sched rand store app =
        ⟨db, store, some msg, [.get .workload]⟩) := by
  refine ⟨⟨?_, ?_⟩, ?_⟩
  · intro h
    cases hgd : sched.getDep with
    | fail m =>
      rw [createDatabase_getDep_fail db sched rand store app m hgd] at h
      simp [randCount] at h
    | ok =>
      cases hdep : lookupRes store.deployments (deriveNN app) with
      | some d =>
        rw [createDatabase_found db sched rand store app d hgd hdep] at h
        simp [randCount] at h
      | none => exact ⟨rfl, rfl⟩
  · rintro ⟨hgd, hdep⟩
    exact createDatabase_absent_randCount db sched rand store app hgd hdep
  · intro msg h
    exact createDatabase_getDep_fail db sched rand store app msg h

/-- Witness for C3: three generator calls on an absent workload, and a
clean abort when the first fetch fails. -/
theorem C3_witness :
    randCount (CreateDatabase provOrders Schedule.allOk constRand Store.empty
      appOrders).trace = 3 ∧
    CreateDatabase provOrders schedGetFail constRand Store.empty appOrders =
      ⟨provOrders, Store.empty, some "store down", [.get .workload]⟩ :=
  ⟨(C3_creds_iff_absent provOrders Schedule.allOk constRand Store.empty
      appOrders).1.mpr ⟨rfl, rfl⟩,
   (C3_creds_iff_absent provOrders schedGetFail constRand Store.empty
      appOrders).2 "store down" rfl⟩

/-- Claim C4: resources are applied in the fixed order workload,
endpoint, storage — a successful run produces exactly `provisionTrace`,
and every run produces an initial segment of it, so a failing step
aborts the rest in order. In particular, when the workload apply
succeeds and the endpoint apply fails, the run returns that error, the
built workload remains in the store, and the storage claim is never
fetched nor applied. -/
theorem C4_endpoint_fail_keeps_workload (db : localDbProvider)
    (sched : Schedule) (rand : Nat → Nat → String) (store : Store)
    (app : ClowdApp) (msg : String)
    (h1 : sched.getDep = .ok)
    (h2 : lookupRes store.deployments (deriveNN app) = none)
    (h3 : sched.applyDep = .ok)
    (h4 : sched.getSvc = .ok)
    (h5 : sched.applySvc = .fail msg) :
    (CreateDatabase db sched rand store app).err = some msg ∧
    lookupRes (CreateDatabase db sched rand store app).store.deployments
        (deriveNN app) =
      some (makeLocalDB emptyDeployment (deriveNN app) app
        (genConfig rand (deriveNN app) app)
        db.Provider.Env.Spec.Database.Image).1 ∧
    (CreateDatabase db sched rand store app).trace =
      [.get .workload, .rand 16, .rand 16, .rand 16, .apply .workload,
       .get .endpoint, .apply .endpoint] ∧
    Event.get .storage ∉ (CreateDatabase db sched rand store app).trace ∧
    Event.apply .storage ∉ (CreateDatabase db sched rand store app).trace ∧
    (∀ sched2 : Schedule, ∃ rest,
      (CreateDatabase db sched2 rand store app).trace ++ rest =
        provisionTrace) ∧
    (∀ (db2 : localDbProvider) (rand2 : Nat → Nat → String) (store2 : Store)
        (app2 : ClowdApp),
      lookupRes store2.deployments (deriveNN app2) = none →
      (CreateDatabase db2 Schedule.allOk rand2 store2 app2).trace =
        provisionTrace) := by
  rw [createDatabase_svcApply_fail db sched rand store app msg h1 h2 h3 h4 h5]
  refine ⟨rfl, lookupRes_insertRes _ _ _, rfl, by simp, by simp, ?_, ?_⟩
  · intro sched2
    exact createDatabase_trace_sequential db sched2 rand store app
  · intro db2 rand2 store2 app2 h
    exact (createDatabase_allOk db2 Schedule.allOk rand2 store2 app2 rfl rfl
      rfl rfl rfl rfl h).2

/-- Witness for C4: the endpoint-apply failure scenario at concrete
inputs. -/
theorem C4_witness :
    (CreateDatabase provOrders schedSvcFail constRand Store.empty
        appOrders).err = some "boom" ∧
    (CreateDatabase provOrders schedSvcFail constRand Store.empty
        appOrders).trace =
      [.get .workload, .rand 16, .rand 16, .rand 16, .apply .workload,
       .get .endpoint, .apply .endpoint] :=
  ⟨(C4_endpoint_fail_keeps_workload provOrders schedSvcFail constRand
      Store.empty appOrders "boom" rfl rfl rfl rfl rfl).1,
   (C4_endpoint_fail_keeps_workload provOrders schedSvcFail constRand
      Store.empty appOrders "boom" rfl rfl rfl rfl rfl).2.2.1⟩

/-- Claim C5, counterexample: as stated the claim is false on the code.
The builders do not work on a copy of the owner label map: at a concrete
descriptor, each of the three builders hands back a descriptor whose
label map has changed (the `service=db` marker was added in place). -/
theorem C5_label_copy_counterexample :
    ¬ ((makeLocalDB emptyDeployment (deriveNN appOrders) appOrders cfgOrders
          "postgres:13").2.Labels = appOrders.Labels ∧
       (makeLocalService emptyService (deriveNN appOrders) appOrders).2.Labels =
          appOrders.Labels ∧
       (makeLocalPVC emptyPVC (deriveNN appOrders) appOrders).2.Labels =
          appOrders.Labels) := by
  decide

/-- Claim C5, amended: each of the three spec builders mutates the
descriptor label map in place, inserting the `service=db` marker: after
a call the descriptor label map equals its original value with
`service ↦ db` inserted, so a caller reusing the descriptor observes the
added marker. -/
theorem C5_label_mutation (dd : Deployment) (s : Service)
    (pvc : PersistentVolumeClaim) (nn : NamespacedName) (pp : ClowdApp)
    (cfg : DatabaseConfig) (image : String) :
    (makeLocalDB dd nn pp cfg image).2.Labels = mapInsert pp.Labels "service" "db" ∧
    (makeLocalService s nn pp).2.Labels = mapInsert pp.Labels "service" "db" ∧
    (makeLocalPVC pvc nn pp).2.Labels = mapInsert pp.Labels "service" "db" :=
  ⟨rfl, rfl, rfl⟩

/-- Claim C6: the derived resource identity is the pair
(`<app-name>-db`, app namespace); it depends only on the descriptor
name and namespace (determinism), and it is injective across distinct
(name, namespace) pairs. -/
theorem C6_derive_deterministic_injective :
    (∀ a : ClowdApp, deriveNN a = ⟨a.Name ++ "-db", a.Namespace⟩) ∧
    (∀ a b : ClowdApp, a.Name = b.Name → a.Namespace = b.Namespace →
      deriveNN a = deriveNN b) ∧
    (∀ a b : ClowdApp, deriveNN a = deriveNN b →
      a.Name = b.Name ∧ a.Namespace = b.Namespace) := by
  refine ⟨fun a => rfl, fun a b h1 h2 => by simp [deriveNN, h1, h2], ?_⟩
  intro a b h
  have hn : a.Name ++ "-db" = b.Name ++ "-db" := congrArg NamespacedName.Name h
  have hns : a.Namespace = b.Namespace := congrArg NamespacedName.Namespace h
  refine ⟨?_, hns⟩
  have hd := congrArg String.data hn
  simp [String.data_append] at hd
  exact String.ext hd

/-- Witness for C6: both directions applied at concrete descriptors. -/
theorem C6_witness :
    deriveNN ⟨"orders", "prod", [], ⟨⟨"d1"⟩⟩⟩ =
      deriveNN ⟨"orders", "prod", [("x", "y")], ⟨⟨"d2"⟩⟩⟩ ∧
    ((⟨"orders", "prod", [], ⟨⟨"d1"⟩⟩⟩ : ClowdApp).Name =
        (⟨"orders", "prod", [("x", "y")], ⟨⟨"d2"⟩⟩⟩ : ClowdApp).Name ∧
      (⟨"orders", "prod", [], ⟨⟨"d1"⟩⟩⟩ : ClowdApp).Namespace =
        (⟨"orders", "prod", [("x", "y")], ⟨⟨"d2"⟩⟩⟩ : ClowdApp).Namespace) :=
  ⟨C6_derive_deterministic_injective.2.1 _ _ rfl rfl,
   C6_derive_deterministic_injective.2.2 _ _ (by decide)⟩

/-- Claim C7: the Workload Builder is deterministic, and the deployment
it populates has replica count 1, selector and template labels equal to
the owner labels plus `service=db`, and exactly one container: the
supplied image, the four environment variables sourced from the config
and the declared database name, one container port 5432 named
`database`, a liveness probe (15s delay, 2s timeout) and readiness
probe (45s delay, 2s timeout) both running a `SELECT 1` check, and the
volume mounted at the database data directory. -/
theorem C7_makeLocalDB_shape (dd : Deployment) (nn : NamespacedName)
    (pp : ClowdApp) (cfg : DatabaseConfig) (image : String) :
    makeLocalDB dd nn pp cfg image = makeLocalDB dd nn pp cfg image ∧
    (makeLocalDB dd nn pp cfg image).1.Spec.Replicas = some 1 ∧
    (makeLocalDB dd nn pp cfg image).1.Spec.Selector =
      some ⟨mapInsert pp.Labels "service" "db"⟩ ∧
    (makeLocalDB dd nn pp cfg image).1.Spec.Template.ObjectMeta.Labels =
      mapInsert pp.Labels "service" "db" ∧
    (makeLocalDB dd nn pp cfg image).1.Spec.Template.Spec.Containers =
      [{ Name := nn.Name
         Image := image
         Env := [⟨"POSTGRESQL_USER", cfg.Username⟩,
                 ⟨"POSTGRESQL_PASSWORD", cfg.Password⟩,
                 ⟨"PGPASSWORD", cfg.PgPass⟩,
                 ⟨"POSTGRESQL_DATABASE", pp.Spec.Database.Name⟩]
         LivenessProbe := some
           ⟨⟨some ⟨["psql", "-U", "$(POSTGRESQL_USER)", "-d",
                   "$(POSTGRESQL_DATABASE)", "-c", "SELECT 1"]⟩⟩, 15, 2⟩
         ReadinessProbe := some
           ⟨⟨some ⟨["psql", "-U", "$(POSTGRESQL_USER)", "-d",
                   "$(POSTGRESQL_DATABASE)", "-c", "SELECT 1"]⟩⟩, 45, 2⟩
         Ports := [⟨"database", 5432⟩]
         VolumeMounts := [⟨nn.Name, "/var/lib/pgsql/data"⟩] }] :=
  ⟨rfl, rfl, rfl, rfl, rfl⟩

/-- Claim C8: the Endpoint Builder produces exactly one port entry with
name `database`, port 5432, protocol TCP, and a selector equal to the
owner labels plus `service=db`. -/
theorem C8_makeLocalService_shape (s : Service) (nn : NamespacedName)
    (pp : ClowdApp) :
    (makeLocalService s nn pp).1.Spec.Ports = [⟨"database", 5432, "TCP"⟩] ∧
    (makeLocalService s nn pp).1.Spec.Selector =
      mapInsert pp.Labels "service" "db" :=
  ⟨rfl, rfl⟩

/-- Claim C9: the Storage Builder produces a claim with access modes
exactly `[ReadWriteOnce]` and a storage request of exactly `1Gi`,
independent of the descriptor contents (the right-hand sides are
constants not mentioning the descriptor). -/
theorem C9_makeLocalPVC_shape (pvc : PersistentVolumeClaim)
    (nn : NamespacedName) (pp : ClowdApp) :
    (makeLocalPVC pvc nn pp).1.Spec.AccessModes = [ReadWriteOnce] ∧
    (makeLocalPVC pvc nn pp).1.Spec.Resources =
      ⟨[(ResourceStorage, MustParse "1Gi")]⟩ :=
  ⟨rfl, rfl⟩

/-- Claim C10: the workload is internally wired by the identity name:
the single pod volume and its claim reference, the single container and
its single volume mount all carry the identity name, which is also the
name stamped onto the claim built by `makeLocalPVC`. -/
theorem C10_wiring (dd : Deployment) (nn : NamespacedName) (pp : ClowdApp)
    (cfg : DatabaseConfig) (image : String) (pvc : PersistentVolumeClaim) :
    (makeLocalDB dd nn pp cfg image).1.Spec.Template.Spec.Volumes =
      [⟨nn.Name, ⟨some ⟨nn.Name⟩⟩⟩] ∧
    ((makeLocalDB dd nn pp cfg image).1.Spec.Template.Spec.Containers.map
      Container.Name) = [nn.Name] ∧
    ((makeLocalDB dd nn pp cfg image).1.Spec.Template.Spec.Containers.map
      Container.VolumeMounts) = [[⟨nn.Name, "/var/lib/pgsql/data"⟩]] ∧
    (makeLocalPVC pvc nn pp).1.ObjectMeta.Name = nn.Name :=
  ⟨rfl, rfl, rfl, rfl⟩

end Clowder
